import Mathlib

/-!
Verification of the authentication and credential-policy subsystem of the
office-resource locator web application (`app/auth_routes.py`,
`app/__init__.py`, `app/models.py`).

The Python code is shallowly embedded: the user record becomes a Lean
structure, the SQLAlchemy-backed user table becomes a `List User`, the
werkzeug password-hash pair (`generate_password_hash`, `check_password_hash`)
becomes an explicit `HashScheme` parameter, HTTP form fields become
`Option String` (Python `request.form.get` returns `None` when absent, and
Python truthiness treats both `None` and `""` as missing), and each route
handler becomes a pure function from its inputs and the store to a
`Page` (flashed messages plus the navigation action) and the updated store.
`urllib.parse.urlsplit` / `urlparse` / `urljoin` are embedded following the
CPython implementation, with `ValueError` modelled as `Except.error`.
-/

namespace App

/-- A password hashing scheme, standing for werkzeug's
`generate_password_hash` / `check_password_hash` pair.  `gen` produces a
hash from a plain password; `check hash plain` verifies a plain password
against a stored hash. -/
structure HashScheme where
  gen : String → String
  check : String → String → Bool

/-- Functional correctness of a hashing scheme: verification succeeds
exactly on the password that produced the hash (werkzeug's contract,
idealised to be collision-free). -/
def HashScheme.Sound (H : HashScheme) : Prop :=
  ∀ p q : String, H.check (H.gen p) q = (p == q)

/-- The transparent hashing scheme (hash = plain text); used to instantiate
the development on concrete inputs. -/
def idHash : HashScheme := ⟨fun p => p, fun h p => h == p⟩

/-- The `User` model of `app/models.py`: the columns the auth subsystem
reads or writes (`email` and `created_at` are never consulted by it). -/
structure User where
  id : Nat
  username : String
  password_hash : String
  is_admin : Bool
  password_must_change : Bool
deriving Repr, DecidableEq

/-- The `User.set_password` method: stores a fresh hash of the plain password. -/
def User.set_password (H : HashScheme) (u : User) (password : String) : User :=
  { u with password_hash := H.gen password }

/-- The `User.check_password` method: verifies a plain password against the stored
hash. -/
def User.check_password (H : HashScheme) (u : User) (password : String) : Bool :=
  H.check u.password_hash password

/-- Truthiness of `re.search(r"[A-Z]", p)`: some character in the ASCII range
`A`-`Z`. -/
def hasUpper (p : String) : Bool :=
  p.data.any (fun c => decide ('A' ≤ c) && decide (c ≤ 'Z'))

/-- Truthiness of `re.search(r"[a-z]", p)`: some character in the ASCII range
`a`-`z`. -/
def hasLower (p : String) : Bool :=
  p.data.any (fun c => decide ('a' ≤ c) && decide (c ≤ 'z'))

/-- Truthiness of `re.search(r"\d", p)`: some decimal digit (modelled over the
ASCII digits `0`-`9`). -/
def hasDigit (p : String) : Bool :=
  p.data.any (fun c => c.isDigit)

/-- The special-character class of the policy regex. -/
def specialSet : List Char :=
  ['!', '@', '#', '$', '%', '^', '&', '*', '(', ')', ',', '.', '?', '"',
   ':', '{', '}', '|', '<', '>']

/-- Truthiness of `re.search` against the special-character class. -/
def hasSpecial (p : String) : Bool :=
  p.data.any (fun c => specialSet.contains c)

/-- The function `validate_password` of `app/auth_routes.py` (lines 38-71), translated
clause by clause: each `if` returns the exact flash message of the source,
and the final clause mirrors Python truthiness in
`if current_password and password == current_password`. -/
def validate_password (password : String)
    (current_password : Option String := none) : Bool × String :=
  if password.length < 10 then
    (false, "Password must be at least 10 characters long")
  else if !(hasUpper password) then
    (false, "Password must contain at least one uppercase letter")
  else if !(hasLower password) then
    (false, "Password must contain at least one lowercase letter")
  else if !(hasDigit password) then
    (false, "Password must contain at least one number")
  else if !(hasSpecial password) then
    (false, "Password must contain at least one special character (!@#$%^&*(),.?\":\x7b\x7d|<>)")
  else if (match current_password with
           | some c => !(c == "") && (password == c)
           | none => false) then
    (false, "New password must be different from the current password")
  else
    (true, "")

/-- The five composition rules of the policy (length and the four
character-class requirements), bundled. -/
def compositionOK (p : String) : Bool :=
  decide (10 ≤ p.length) && hasUpper p && hasLower p && hasDigit p && hasSpecial p

/-! ### `urllib.parse`, as used by `is_safe_url`

The CPython 3.11 implementation of `urlsplit` / `urlparse` / `urljoin` /
`urlunsplit` / `urlunparse`, embedded over `List Char`.  `ValueError`
("Invalid IPv6 URL") becomes `Except.error`.  Two checks that only concern
exotic inputs are not modelled: `_check_bracketed_host` (syntax of an
IPv6/IPvFuture literal inside matched brackets) and `_checknetloc` (NFKC
normalisation of non-ASCII netlocs); neither can fire on the ASCII,
bracket-free URLs all theorems below use. -/

/-- The result of `urlsplit`: scheme, netloc, path, query, fragment. -/
structure SplitResult where
  scheme : String
  netloc : String
  path : String
  query : String
  fragment : String
deriving Repr, DecidableEq

/-- The result of `urlparse`: `urlsplit` plus the `params` component. -/
structure ParseResult where
  scheme : String
  netloc : String
  path : String
  params : String
  query : String
  fragment : String
deriving Repr, DecidableEq

/-- The list `urllib.parse.uses_relative`. -/
def uses_relative : List String :=
  ["", "ftp", "http", "gopher", "nntp", "imap", "wais", "file", "https",
   "shttp", "mms", "prospero", "rtsp", "rtsps", "rtspu", "sftp", "svn",
   "svn+ssh", "ws", "wss"]

/-- The list `urllib.parse.uses_netloc`. -/
def uses_netloc : List String :=
  ["", "ftp", "http", "gopher", "nntp", "telnet", "imap", "wais", "file",
   "mms", "https", "shttp", "snews", "prospero", "rtsp", "rtsps", "rtspu",
   "rsync", "svn", "svn+ssh", "sftp", "nfs", "git", "git+ssh", "ws", "wss"]

/-- The list `urllib.parse.uses_params`. -/
def uses_params : List String :=
  ["", "ftp", "hdl", "prospero", "http", "imap", "https", "shttp", "rtsp",
   "rtsps", "rtspu", "sip", "sips", "mms", "sftp", "tel"]

/-- A scheme character: `scheme_chars` is the ASCII letters, digits and
`+`, `-`, `.`. -/
def isSchemeChar (c : Char) : Bool :=
  c.isAlpha || c.isDigit || c == '+' || c == '-' || c == '.'

/-- A WHATWG C0 control or space character (`U+0000`-`U+0020`). -/
def c0sp (c : Char) : Bool :=
  decide (c.val ≤ 32)

/-- One of the `_UNSAFE_URL_BYTES_TO_REMOVE` (tab, CR, LF). -/
def unsafeUrlByte (c : Char) : Bool :=
  c == '\t' || c == '\r' || c == '\n'

/-- Python `url.lstrip(_WHATWG_C0_CONTROL_OR_SPACE)` followed by removal of every
tab/CR/LF, the sanitisation `urlsplit` applies to its `url` argument. -/
def cleanUrl (s : List Char) : List Char :=
  (s.dropWhile c0sp).filter (fun c => !(unsafeUrlByte c))

/-- Python `scheme.strip(_WHATWG_C0_CONTROL_OR_SPACE)` followed by removal of every
tab/CR/LF, the sanitisation `urlsplit` applies to its `scheme` argument. -/
def cleanScheme (s : String) : String :=
  String.mk ((((s.data.dropWhile c0sp).reverse.dropWhile c0sp).reverse).filter
    (fun c => !(unsafeUrlByte c)))

/-- Split a character list at the first occurrence of `sep` (Python
`s.split(sep, 1)`); `none` when `sep` does not occur. -/
def breakAtChar (sep : Char) : List Char → Option (List Char × List Char)
  | [] => none
  | c :: cs =>
      if c == sep then some ([], cs)
      else
        match breakAtChar sep cs with
        | some (a, b) => some (c :: a, b)
        | none => none

/-- Take characters until one of `stops` is hit, returning the prefix and
the rest (the rest starts with the stop character); the loop of
`_splitnetloc`. -/
def spanUntil (stops : List Char) : List Char → List Char × List Char
  | [] => ([], [])
  | c :: cs =>
      if stops.contains c then ([], c :: cs)
      else
        match spanUntil stops cs with
        | (a, b) => (c :: a, b)

/-- Python `s.split(sep)` on a character list: always returns at least one
(possibly empty) piece. -/
def splitChar (sep : Char) : List Char → List (List Char)
  | [] => [[]]
  | c :: cs =>
      match splitChar sep cs with
      | x :: xs => if c == sep then [] :: x :: xs else (c :: x) :: xs
      | [] => [[]]

/-- The scheme-detection step of `urlsplit`: if the first `:` is preceded
by a nonempty run of scheme characters starting with an ASCII letter, that
run (lower-cased) is the scheme and the remainder follows the `:`;
otherwise the default scheme stands and the URL is unchanged. -/
def schemeSplit (url : List Char) (dscheme : String) : String × List Char :=
  match breakAtChar ':' url with
  | some (c0 :: rest, after) =>
      if c0.isAlpha && (c0 :: rest).all isSchemeChar then
        (String.mk ((c0 :: rest).map Char.toLower), after)
      else (dscheme, url)
  | some ([], _) => (dscheme, url)
  | none => (dscheme, url)

/-- The fragment/query extraction at the end of `urlsplit` (with
`allow_fragments = True`): split off the fragment at the first `#`, then
the query at the first `?`. -/
def finishSplit (scheme : String) (netloc rest : List Char) : SplitResult :=
  let fq : List Char × List Char :=
    match breakAtChar '#' rest with
    | some (a, b) => (a, b)
    | none => (rest, [])
  let pq : List Char × List Char :=
    match breakAtChar '?' fq.1 with
    | some (a, b) => (a, b)
    | none => (fq.1, [])
  ⟨scheme, String.mk netloc, String.mk pq.1, String.mk pq.2, String.mk fq.2⟩

/-- The function `urllib.parse.urlsplit(url, scheme)` (with `allow_fragments = True`),
over character lists.  Raises ("Invalid IPv6 URL") exactly when the netloc
contains one bracket without its partner. -/
def urlsplitList (url0 : List Char) (dscheme : String) : Except String SplitResult :=
  let url1 := cleanUrl url0
  let sr := schemeSplit url1 (cleanScheme dscheme)
  if sr.2.take 2 = ['/', '/'] then
    let nl := spanUntil ['/', '?', '#'] (sr.2.drop 2)
    if (nl.1.contains '[' && !(nl.1.contains ']')) ||
       (nl.1.contains ']' && !(nl.1.contains '[')) then
      .error "Invalid IPv6 URL"
    else
      .ok (finishSplit sr.1 nl.1 nl.2)
  else
    .ok (finishSplit sr.1 [] sr.2)

/-- Python `url.rfind(sep)` for a character known to occur in the list. -/
def lastIdxOf (sep : Char) (l : List Char) : Nat :=
  l.length - 1 - l.reverse.findIdx (· == sep)

/-- Python `url.find(sep, start)`. -/
def findIdxFrom (sep : Char) (start : Nat) (l : List Char) : Option Nat :=
  match (l.drop start).findIdx? (· == sep) with
  | some j => some (start + j)
  | none => none

/-- The function `urllib.parse._splitparams`: split the params off the last path
segment, at the first `;` that follows the last `/`. -/
def splitparams (url : List Char) : List Char × List Char :=
  if url.contains '/' then
    match findIdxFrom ';' (lastIdxOf '/' url) url with
    | none => (url, [])
    | some i => (url.take i, url.drop (i + 1))
  else
    match url.findIdx? (· == ';') with
    | some i => (url.take i, url.drop (i + 1))
    | none => (url.dropLast, url)

/-- The function `urllib.parse.urlparse(url, scheme)` over character lists: `urlsplit`
followed by params extraction for schemes in `uses_params`. -/
def urlparseList (url : List Char) (dscheme : String) : Except String ParseResult := do
  let s ← urlsplitList url dscheme
  let pp : List Char × List Char :=
    if uses_params.contains s.scheme && s.path.data.contains ';' then
      splitparams s.path.data
    else (s.path.data, [])
  .ok ⟨s.scheme, s.netloc, String.mk pp.1, String.mk pp.2, s.query, s.fragment⟩

/-- The function `urllib.parse.urlparse` on strings (default scheme `""`). -/
def urlparse (url : String) : Except String ParseResult :=
  urlparseList url.data ""

/-- The function `urllib.parse.urlunsplit`. -/
def urlunsplit (scheme netloc path query fragment : String) : String :=
  let url := path.data
  let url :=
    if netloc ≠ "" ||
       (scheme ≠ "" && uses_netloc.contains scheme && url.take 2 ≠ ['/', '/']) then
      let url2 := if url ≠ [] && url.take 1 ≠ ['/'] then '/' :: url else url
      '/' :: '/' :: (netloc.data ++ url2)
    else url
  let url := if scheme ≠ "" then scheme.data ++ ':' :: url else url
  let url := if query ≠ "" then url ++ '?' :: query.data else url
  let url := if fragment ≠ "" then url ++ '#' :: fragment.data else url
  String.mk url

/-- The function `urllib.parse.urlunparse`. -/
def urlunparse (p : ParseResult) : String :=
  let path := if p.params ≠ "" then p.path ++ ";" ++ p.params else p.path
  urlunsplit p.scheme p.netloc path p.query p.fragment

/-- Python `segments[1:-1] = filter(None, segments[1:-1])`: drop empty pieces,
keeping the first and last elements unconditionally (helper consuming the
tail, so its last element is the overall last). -/
def keepLastFilterEmpty : List (List Char) → List (List Char)
  | [] => []
  | [x] => [x]
  | x :: y :: rest =>
      if x = [] then keepLastFilterEmpty (y :: rest)
      else x :: keepLastFilterEmpty (y :: rest)

/-- Apply `keepLastFilterEmpty` to everything after the first element. -/
def filterMiddle : List (List Char) → List (List Char)
  | [] => []
  | x :: rest => x :: keepLastFilterEmpty rest

/-- The segment-resolution loop of `urljoin`: `..` pops (ignored on an
empty stack), `.` is skipped, anything else is pushed. -/
def segsResolve (segs : List (List Char)) : List (List Char) :=
  segs.foldl
    (fun acc seg =>
      if seg = ['.', '.'] then acc.dropLast
      else if seg = ['.'] then acc
      else acc ++ [seg])
    []

/-- The function `urllib.parse.urljoin(base, url)`, following the CPython 3.11 source
line by line (early returns become nested conditionals; the mutated local
`netloc` becomes a `let`). -/
def urljoin (base url : String) : Except String String :=
  if base = "" then .ok url
  else if url = "" then .ok base
  else do
    let b ← urlparseList base.data ""
    let u ← urlparseList url.data b.scheme
    if u.scheme ≠ b.scheme || !(uses_relative.contains u.scheme) then
      .ok url
    else if uses_netloc.contains u.scheme && u.netloc ≠ "" then
      .ok (urlunparse ⟨u.scheme, u.netloc, u.path, u.params, u.query, u.fragment⟩)
    else
      let netloc := if uses_netloc.contains u.scheme then b.netloc else u.netloc
      if u.path = "" && u.params = "" then
        let query := if u.query = "" then b.query else u.query
        .ok (urlunparse ⟨u.scheme, netloc, b.path, b.params, query, u.fragment⟩)
      else
        let base_parts := splitChar '/' b.path.data
        let base_parts :=
          if base_parts.getLastD [] ≠ [] then base_parts.dropLast else base_parts
        let segments :=
          if u.path.data.take 1 = ['/'] then splitChar '/' u.path.data
          else filterMiddle (base_parts ++ splitChar '/' u.path.data)
        let resolved := segsResolve segments
        let resolved :=
          if segments.getLastD [] = ['.'] || segments.getLastD [] = ['.', '.'] then
            resolved ++ [[]]
          else resolved
        let joined := List.intercalate ['/'] resolved
        let path := if joined = [] then ['/'] else joined
        .ok (urlunparse ⟨u.scheme, netloc, String.mk path, u.params, u.query, u.fragment⟩)

/-- The function `is_safe_url` of `app/auth_routes.py` (lines 15-35), with the request
host URL (`request.host_url`) passed explicitly; a `ValueError` escaping
from `urllib.parse` propagates as `Except.error`. -/
def is_safe_url (target : String) (host_url : String) : Except String Bool :=
  if target = "" then .ok false
  else do
    let ref ← urlparse host_url
    let joined ← urljoin host_url target
    let test ← urlparse joined
    .ok ((test.scheme == "http" || test.scheme == "https") &&
         (ref.netloc == test.netloc))

/-! ### The user store and the route handlers

The SQLAlchemy user table becomes a `List User`;
`User.query.filter_by(username=...).first()` becomes `find?` on the
username, `User.query.get(id)` becomes `find?` on the id,
`db.session.add` appends (the store assigns the next id, passed in
explicitly), and in-place mutation of a fetched row becomes a `map`
replacing the row with the matching id. -/

/-- The query `User.query.filter_by(username=name).first()`. -/
def findByUsername (store : List User) (name : String) : Option User :=
  store.find? (fun u => u.username == name)

/-- The query `User.query.get(i)` / `User.query.get_or_404(i)`, lookup part. -/
def findById (store : List User) (i : Nat) : Option User :=
  store.find? (fun u => u.id == i)

/-- The `countAdmins()` operation of the spec's Credential Store contract:
the number of accounts with `isAdmin = true`. -/
def countAdmins (store : List User) : Nat :=
  (store.filter (fun u => u.is_admin)).length

/-- Where a handler sends the browser next: re-render a template, redirect
to a named endpoint or to a raw `next` URL, or abort with 404. -/
inductive Action where
  | renderLogin
  | renderChangePassword
  | redirectChangePassword
  | redirectAdmin
  | redirectIndex
  | redirectUserList
  | redirectNext (url : String)
  | notFound
deriving Repr, DecidableEq

/-- A handler's user-visible outcome: the flashed `(message, category)`
pairs plus the navigation action. -/
structure Page where
  flashes : List (String × String)
  action : Action
deriving Repr, DecidableEq

/-- The `POST /login` handler (`login`, `app/auth_routes.py` lines 74-112):
form fields are `Option String` (absent or present), `currentUser` is the
Flask-Login session state on entry, and the returned `Option User` is the
session state on exit (`login_user` sets it; failure paths leave it as it
was, here `none` since the POST branch runs only when unauthenticated).
Python truthiness `if not username or not password` treats `None` and `""`
alike, hence the `Option.getD "" = ""` tests. -/
def login (H : HashScheme) (store : List User) (currentUser : Option User)
    (username password nextParam : Option String) (host_url : String) :
    Except String (Page × Option User) :=
  match currentUser with
  | some cu =>
      if cu.password_must_change then .ok (⟨[], .redirectChangePassword⟩, some cu)
      else .ok (⟨[], .redirectAdmin⟩, some cu)
  | none =>
      if username.getD "" = "" || password.getD "" = "" then
        .ok (⟨[("Username and password are required", "error")], .renderLogin⟩, none)
      else
        let un := username.getD ""
        let pw := password.getD ""
        match findByUsername store un with
        | some user =>
            if user.check_password H pw then
              if !user.is_admin then
                .ok (⟨[("Access denied. Admin privileges required.", "error")],
                      .renderLogin⟩, none)
              else if user.password_must_change then
                .ok (⟨[("You must change your password before continuing", "warning")],
                      .redirectChangePassword⟩, some user)
              else
                match nextParam with
                | some np =>
                    if np ≠ "" then do
                      let safe ← is_safe_url np host_url
                      if safe then .ok (⟨[], .redirectNext np⟩, some user)
                      else .ok (⟨[], .redirectAdmin⟩, some user)
                    else .ok (⟨[], .redirectAdmin⟩, some user)
                | none => .ok (⟨[], .redirectAdmin⟩, some user)
            else
              .ok (⟨[("Invalid username or password", "error")], .renderLogin⟩, none)
        | none =>
            .ok (⟨[("Invalid username or password", "error")], .renderLogin⟩, none)

/-- The `POST /change-password` handler (`change_password`,
`app/auth_routes.py` lines 124-172) for the logged-in `user`; returns the
page plus the (possibly updated) user record. -/
def change_password (H : HashScheme) (user : User)
    (current_password new_password confirm_password : Option String) :
    Page × User :=
  if current_password.getD "" = "" || new_password.getD "" = "" ||
     confirm_password.getD "" = "" then
    (⟨[("All fields are required", "error")], .renderChangePassword⟩, user)
  else
    let cp := current_password.getD ""
    let np := new_password.getD ""
    let cf := confirm_password.getD ""
    if !(user.check_password H cp) then
      (⟨[("Current password is incorrect", "error")], .renderChangePassword⟩, user)
    else if np ≠ cf then
      (⟨[("New passwords do not match", "error")], .renderChangePassword⟩, user)
    else
      let v := validate_password np (some cp)
      if !v.1 then
        (⟨[(v.2, "error")], .renderChangePassword⟩, user)
      else
        (⟨[("Password changed successfully", "success")], .redirectAdmin⟩,
         { (user.set_password H np) with password_must_change := false })

/-- The `POST /admin/users/create` handler (`create_user`,
`app/auth_routes.py` lines 187-218): `caller` is the logged-in user,
`nextId` the id the store would assign; returns the page and the updated
store. -/
def create_user (H : HashScheme) (store : List User) (caller : User)
    (username password : Option String) (nextId : Nat) :
    Page × List User :=
  if !caller.is_admin then
    (⟨[("Access denied", "error")], .redirectIndex⟩, store)
  else if username.getD "" = "" || password.getD "" = "" then
    (⟨[("Username and password are required", "error")], .redirectUserList⟩, store)
  else
    let un := username.getD ""
    let pw := password.getD ""
    if (findByUsername store un).isSome then
      (⟨[("User \x27" ++ un ++ "\x27 already exists", "error")], .redirectUserList⟩,
       store)
    else
      let v := validate_password pw none
      if !v.1 then
        (⟨[(v.2, "error")], .redirectUserList⟩, store)
      else
        (⟨[("Admin user \x27" ++ un ++ "\x27 created successfully", "success")],
          .redirectUserList⟩,
         store ++ [({ id := nextId, username := un, password_hash := "",
                      is_admin := true,
                      password_must_change := true : User }).set_password H pw])

/-- The `POST /admin/users/<id>/reset-password` handler
(`reset_user_password`, `app/auth_routes.py` lines 242-267): returns the
page and the updated store (`get_or_404` aborting becomes the `notFound`
action with the store untouched). -/
def reset_user_password (H : HashScheme) (store : List User) (caller : User)
    (user_id : Nat) (new_password : Option String) :
    Page × List User :=
  if !caller.is_admin then
    (⟨[("Access denied", "error")], .redirectIndex⟩, store)
  else if new_password.getD "" = "" then
    (⟨[("New password is required", "error")], .redirectUserList⟩, store)
  else
    let np := new_password.getD ""
    let v := validate_password np none
    if !v.1 then
      (⟨[(v.2, "error")], .redirectUserList⟩, store)
    else
      match findById store user_id with
      | none => (⟨[], .notFound⟩, store)
      | some u =>
          (⟨[("Password reset for \x27" ++ u.username ++
              "\x27. They must change it on next login.", "success")],
            .redirectUserList⟩,
           store.map (fun w =>
             if w.id == u.id then
               { (w.set_password H np) with password_must_change := true }
             else w))

/-- The function `create_default_admin` of `app/__init__.py` (lines 62-83).  The store
is `none` when the table does not exist yet (any query raises, the
handler's `except` swallows it and nothing happens).  Note the guard the
source actually uses: a lookup of the username `"admin"`, not a count of
admin accounts. -/
def create_default_admin (H : HashScheme) (store : Option (List User))
    (nextId : Nat) : Option (List User) :=
  match store with
  | none => none
  | some s =>
      if (findByUsername s "admin").isSome then some s
      else
        some (s ++ [({ id := nextId, username := "admin", password_hash := "",
                       is_admin := true,
                       password_must_change := true : User }).set_password H
                      "Admin123!@#"])

/-- A concrete admin account used to instantiate the theorems below (under
the transparent `idHash`, the stored hash is the plain password). -/
def aliceUser : User := ⟨1, "alice", "Wonder123!", true, false⟩

/-- A concrete non-admin account. -/
def bobUser : User := ⟨2, "bob", "Builder123!", false, false⟩

/-- A concrete admin account with a pending forced password change. -/
def carolUser : User := ⟨3, "carol", "Secret123!?", true, true⟩

/-! ### Theorems -/

/-- The transparent scheme satisfies the hashing contract. -/
theorem idHash_sound : idHash.Sound := fun _ _ => rfl

/-- Claim C1: `validate_password` applies its rules in order with the first
failure winning: `ok = true` iff the five composition rules hold and, when
a previous password is supplied, the candidate differs from it; the reason
string is empty exactly when `ok = true`; every candidate shorter than 10
characters fails citing length; and every candidate passing the five
composition rules succeeds, unless it equals a supplied previous password,
in which case it fails citing sameness. -/
theorem validate_password_spec (p : String) (prev : Option String) :
    ((validate_password p prev).1 = true ↔
      (compositionOK p = true ∧ ∀ q, prev = some q → p ≠ q))
    ∧ ((validate_password p prev).2 = "" ↔ (validate_password p prev).1 = true)
    ∧ (p.length < 10 →
        validate_password p prev =
          (false, "Password must be at least 10 characters long"))
    ∧ (compositionOK p = true →
        validate_password p prev =
          if prev = some p then
            (false, "New password must be different from the current password")
          else (true, "")) := by
  have hpne : 10 ≤ p.length → p ≠ "" := by
    intro h hcon
    subst hcon
    simp at h
  by_cases h1 : p.length < 10
  · have hc : compositionOK p = false := by
      simp [compositionOK]
      omega
    refine ⟨?_, ?_, ?_, ?_⟩ <;> simp [validate_password, h1, hc]
  · by_cases h2 : hasUpper p
    · by_cases h3 : hasLower p
      · by_cases h4 : hasDigit p
        · by_cases h5 : hasSpecial p
          · have hc : compositionOK p = true := by
              simp [compositionOK, h2, h3, h4, h5]
              omega
            have hp : p ≠ "" := hpne (by omega)
            refine ⟨?_, ?_, ?_, ?_⟩
            · cases prev with
              | none => simp [validate_password, h1, h2, h3, h4, h5, hc]
              | some q =>
                  by_cases hq : q = ""
                  · subst hq
                    simp [validate_password, h1, h2, h3, h4, h5, hc]
                    intro hq'
                    exact hp hq'
                  · by_cases hpq : p = q
                    · subst hpq
                      simp [validate_password, h1, h2, h3, h4, h5, hc, hq]
                    · simp [validate_password, h1, h2, h3, h4, h5, hc, hq, hpq]
            · cases prev with
              | none => simp [validate_password, h1, h2, h3, h4, h5]
              | some q =>
                  by_cases hq : q = ""
                  · subst hq
                    simp [validate_password, h1, h2, h3, h4, h5]
                  · by_cases hpq : p = q
                    · subst hpq
                      simp [validate_password, h1, h2, h3, h4, h5, hq]
                    · simp [validate_password, h1, h2, h3, h4, h5, hq, hpq]
            · intro hlt
              omega
            · intro _
              cases prev with
              | none => simp [validate_password, h1, h2, h3, h4, h5]
              | some q =>
                  by_cases hq : q = ""
                  · subst hq
                    have : ¬ (some "" = some p) := by
                      simp
                      exact fun h => hp h.symm
                    simp [validate_password, h1, h2, h3, h4, h5, this]
                  · by_cases hpq : p = q
                    · subst hpq
                      simp [validate_password, h1, h2, h3, h4, h5, hq]
                    · have : ¬ (some q = some p) := by
                        simp
                        exact fun h => hpq h.symm
                      simp [validate_password, h1, h2, h3, h4, h5, hq, hpq, this]
          · have hc : compositionOK p = false := by
              simp [compositionOK, h5]
            refine ⟨?_, ?_, ?_, ?_⟩ <;>
              simp [validate_password, h1, h2, h3, h4, h5, hc]
        · have hc : compositionOK p = false := by
            simp [compositionOK, h4]
          refine ⟨?_, ?_, ?_, ?_⟩ <;>
            simp [validate_password, h1, h2, h3, h4, hc]
      · have hc : compositionOK p = false := by
          simp [compositionOK, h3]
        refine ⟨?_, ?_, ?_, ?_⟩ <;>
          simp [validate_password, h1, h2, h3, hc]
    · have hc : compositionOK p = false := by
        simp [compositionOK, h2]
      refine ⟨?_, ?_, ?_, ?_⟩ <;>
        simp [validate_password, h1, h2, hc]

/-- Claim C3: `is_safe_url` rejects the empty target for every host URL;
otherwise it resolves the target against the request host URL and accepts
exactly when the resolved scheme is `http` or `https` and the resolved
netloc (host including port) equals the request host URL's netloc; in
particular `/admin` against `https://x.test` is safe and
`https://evil.test/x` is not. -/
theorem is_safe_url_spec :
    (∀ h : String, is_safe_url "" h = .ok false)
    ∧ (∀ (t h : String) (ref : ParseResult) (j : String) (test : ParseResult),
        t ≠ "" → urlparse h = .ok ref → urljoin h t = .ok j →
        urlparse j = .ok test →
        (is_safe_url t h = .ok true ↔
          (test.scheme = "http" ∨ test.scheme = "https") ∧
          test.netloc = ref.netloc))
    ∧ is_safe_url "/admin" "https://x.test" = .ok true
    ∧ is_safe_url "https://evil.test/x" "https://x.test" = .ok false := by
  refine ⟨?_, ?_, ?_, ?_⟩
  · intro h
    simp [is_safe_url]
  · intro t h ref j test ht h1 h2 h3
    simp only [is_safe_url, ht, if_neg ht, bind, Except.bind, h1, h2, h3]
    constructor
    · intro hok
      have := Except.ok.inj hok
      simp only [Bool.and_eq_true, Bool.or_eq_true, beq_iff_eq] at this
      exact ⟨this.1, this.2.symm⟩
    · intro ⟨ha, hb⟩
      have : ((test.scheme == "http" || test.scheme == "https") &&
              (ref.netloc == test.netloc)) = true := by
        simp only [Bool.and_eq_true, Bool.or_eq_true, beq_iff_eq]
        exact ⟨ha, hb.symm⟩
      simp [this]
  · rfl
  · rfl

theorem is_safe_url_spec_witness :
    ("/admin" : String) ≠ "" ∧
    (is_safe_url "/admin" "https://x.test" = .ok true ↔
      (("https" : String) = "http" ∨ ("https" : String) = "https") ∧
      ("x.test" : String) = "x.test") :=
  ⟨by decide,
   is_safe_url_spec.2.1 "/admin" "https://x.test"
     ⟨"https", "x.test", "", "", "", ""⟩ "https://x.test/admin"
     ⟨"https", "x.test", "/admin", "", "", ""⟩ (by decide) rfl rfl rfl⟩


/-- Helper: a nonempty password never validates against itself as the
previous password. -/
theorem validate_self_false (cp : String) (hcp : cp ≠ "") :
    (validate_password cp (some cp)).1 = false := by
  unfold validate_password
  repeat' split
  all_goals simp_all

/-- Helper: a password that validates against a nonempty previous password
differs from it. -/
theorem validate_ok_ne (np cp : String)
    (h : (validate_password np (some cp)).1 = true) (hcp : cp ≠ "") : np ≠ cp := by
  intro heq
  subst heq
  rw [validate_self_false np hcp] at h
  exact Bool.false_ne_true h

/-- Claim C4: a login attempt through the admin login path with the correct
password of an account whose `is_admin` is false is denied with the
access-denied (admin privileges required) message and establishes no
session, for every `next` parameter and host. -/
theorem login_nonadmin_denied (H : HashScheme) (store : List User) (user : User)
    (un pw : String) (nextParam : Option String) (host_url : String)
    (hun : un ≠ "") (hpw : pw ≠ "")
    (hfind : findByUsername store un = some user)
    (hpwok : user.check_password H pw = true)
    (hadmin : user.is_admin = false) :
    login H store none (some un) (some pw) nextParam host_url =
      .ok (⟨[("Access denied. Admin privileges required.", "error")],
            .renderLogin⟩, none) := by
  simp [login, hun, hpw, hfind, hpwok, hadmin]

/-- Claim C5: a successful login by an account with
`password_must_change = true` responds with a redirect to the
change-password flow; the `next` parameter and the host URL are
universally quantified and never consulted. -/
theorem login_must_change_redirects (H : HashScheme) (store : List User)
    (user : User) (un pw : String) (nextParam : Option String) (host_url : String)
    (hun : un ≠ "") (hpw : pw ≠ "")
    (hfind : findByUsername store un = some user)
    (hpwok : user.check_password H pw = true)
    (hadmin : user.is_admin = true)
    (hmc : user.password_must_change = true) :
    login H store none (some un) (some pw) nextParam host_url =
      .ok (⟨[("You must change your password before continuing", "warning")],
            .redirectChangePassword⟩, some user) := by
  simp [login, hun, hpw, hfind, hpwok, hadmin, hmc]

/-- Claim C7: the login failure response when no account matches the
username is identical to the failure response when the account exists but
the password does not match — both flash `Invalid username or password`
and establish no session — so an unauthenticated caller cannot tell the
two cases apart from the response. -/
theorem login_invalid_credentials_uniform (H H2 : HashScheme)
    (store store2 : List User) (u : User) (un pw un2 pw2 : String)
    (nextParam nextParam2 : Option String) (host host2 : String)
    (hun : un ≠ "") (hpw : pw ≠ "") (hun2 : un2 ≠ "") (hpw2 : pw2 ≠ "")
    (habsent : findByUsername store un = none)
    (hfound : findByUsername store2 un2 = some u)
    (hbad : u.check_password H2 pw2 = false) :
    login H store none (some un) (some pw) nextParam host =
      login H2 store2 none (some un2) (some pw2) nextParam2 host2 ∧
    login H store none (some un) (some pw) nextParam host =
      .ok (⟨[("Invalid username or password", "error")], .renderLogin⟩, none) := by
  have e1 : login H store none (some un) (some pw) nextParam host =
      .ok (⟨[("Invalid username or password", "error")], .renderLogin⟩, none) := by
    simp [login, hun, hpw, habsent]
  have e2 : login H2 store2 none (some un2) (some pw2) nextParam2 host2 =
      .ok (⟨[("Invalid username or password", "error")], .renderLogin⟩, none) := by
    simp [login, hun2, hpw2, hfound, hbad]
  exact ⟨e1.trans e2.symm, e1⟩

/-- Claim C6: after every successful `change_password` call, the account's
`password_must_change` is false, the new password authenticates, and the
offered (correct) current password no longer authenticates. -/
theorem change_password_spec (H : HashScheme) (user : User) (cp np cf : String)
    (hH : H.Sound)
    (hsucc : (change_password H user (some cp) (some np) (some cf)).1.action =
      Action.redirectAdmin) :
    (change_password H user (some cp) (some np) (some cf)).2.password_must_change
        = false
    ∧ (change_password H user (some cp) (some np) (some cf)).2.check_password H np
        = true
    ∧ (change_password H user (some cp) (some np) (some cf)).2.check_password H cp
        = false := by
  by_cases h1 : cp = ""
  · simp [change_password, h1] at hsucc
  by_cases h2 : np = ""
  · simp [change_password, h1, h2] at hsucc
  by_cases h3 : cf = ""
  · simp [change_password, h1, h2, h3] at hsucc
  by_cases h4 : H.check user.password_hash cp = true
  case neg =>
    rw [Bool.not_eq_true] at h4
    simp [change_password, h1, h2, h3, User.check_password, h4] at hsucc
  by_cases h5 : np = cf
  case neg =>
    simp [change_password, h1, h2, h3, User.check_password, h4, h5] at hsucc
  subst h5
  by_cases h6 : (validate_password np (some cp)).1 = true
  case neg =>
    rw [Bool.not_eq_true] at h6
    simp [change_password, h1, h2, h3, User.check_password, h4, h6] at hsucc
  have hne : np ≠ cp := validate_ok_ne np cp h6 h1
  have hcknp : H.check (H.gen np) np = true := by
    rw [hH np np]
    simp
  have hckcp : H.check (H.gen np) cp = false := by
    rw [hH np cp]
    simp [hne]
  simp [change_password, h1, h2, h3, h4, h6, User.check_password,
        User.set_password, hcknp, hckcp]

/-- Claim C8: `create_user` by an admin caller rejects a username already
present in the store with the already-exists message, and rejects a
policy-violating password with the policy's reason; in both cases the
returned store is exactly the input store. -/
theorem create_user_rejects (H : HashScheme) (store : List User) (caller : User)
    (un pw : String) (nextId : Nat)
    (hadmin : caller.is_admin = true) (hun : un ≠ "") (hpw : pw ≠ "") :
    (∀ u, findByUsername store un = some u →
      create_user H store caller (some un) (some pw) nextId =
        (⟨[("User \x27" ++ un ++ "\x27 already exists", "error")],
          .redirectUserList⟩, store))
    ∧ (findByUsername store un = none → (validate_password pw none).1 = false →
      create_user H store caller (some un) (some pw) nextId =
        (⟨[((validate_password pw none).2, "error")], .redirectUserList⟩,
         store)) := by
  constructor
  · intro u hu
    simp [create_user, hadmin, hun, hpw, hu]
  · intro hn hv
    simp [create_user, hadmin, hun, hpw, hn, hv]

/-- Helper: updating the found record through an id-preserving function is
visible to a subsequent lookup of the same id. -/
theorem findById_update (tid : Nat) (g : User → User) (hg : ∀ w, (g w).id = w.id)
    (l : List User) (u : User) (hfind : findById l tid = some u) :
    findById (l.map (fun w => if w.id == u.id then g w else w)) tid =
      some (g u) := by
  have hutid : u.id = tid := by
    have := List.find?_some hfind
    simpa using this
  induction l with
  | nil => simp [findById] at hfind
  | cons a l ih =>
      by_cases ha : (a.id == tid) = true
      · have hau : a = u := by
          have : some a = some u := by
            simpa [findById, List.find?, ha] using hfind
          exact Option.some.inj this
        subst hau
        have hga : ((g a).id == tid) = true := by
          simp [hg a]
          simpa using ha
        simp [findById, List.find?, ha, hga]
      · have hne : ¬ ((a.id == u.id) = true) := by
          intro hcon
          apply ha
          simp at hcon ⊢
          omega
        have hfind' : findById l tid = some u := by
          simpa [findById, List.find?, ha] using hfind
        have := ih hfind'
        simpa [findById, List.find?, ha, hne] using this

/-- Claim C9: a successful `reset_user_password` by an admin leaves the
target account with `password_must_change = true` — regardless of its
previous value — and with its hash rotated to a fresh hash of the new
password. -/
theorem reset_user_password_spec (H : HashScheme) (store : List User)
    (caller : User) (tid : Nat) (np : String) (u : User)
    (hadmin : caller.is_admin = true) (hnp : np ≠ "")
    (hval : (validate_password np none).1 = true)
    (hfind : findById store tid = some u) :
    findById (reset_user_password H store caller tid (some np)).2 tid =
      some { (u.set_password H np) with password_must_change := true }
    ∧ ({ (u.set_password H np) with password_must_change := true
         : User }).password_must_change = true
    ∧ ({ (u.set_password H np) with password_must_change := true
         : User }).password_hash = H.gen np := by
  refine ⟨?_, rfl, rfl⟩
  have hmap := findById_update tid
    (fun w => { (w.set_password H np) with password_must_change := true })
    (fun w => rfl) store u hfind
  simpa [reset_user_password, hadmin, hnp, hval, hfind] using hmap

/-- Claim C10: in `reset_user_password` the new-password presence and
policy checks run before the target lookup: for an admin caller a missing
or policy-violating password yields the corresponding validation error
with the store unchanged, for every store (in particular when the target
id refers to no account); and a 404 occurs only when the password passed
validation and the target id is absent. -/
theorem reset_user_password_validates_before_lookup (H : HashScheme)
    (store : List User) (caller : User) (tid : Nat) (np? : Option String)
    (hadmin : caller.is_admin = true) :
    (np?.getD "" = "" →
      reset_user_password H store caller tid np? =
        (⟨[("New password is required", "error")], .redirectUserList⟩, store))
    ∧ (∀ np, np? = some np → np ≠ "" → (validate_password np none).1 = false →
        reset_user_password H store caller tid np? =
          (⟨[((validate_password np none).2, "error")], .redirectUserList⟩,
           store))
    ∧ ((reset_user_password H store caller tid np?).1.action = Action.notFound →
        np?.getD "" ≠ "" ∧ (validate_password (np?.getD "") none).1 = true ∧
        findById store tid = none) := by
  refine ⟨?_, ?_, ?_⟩
  · intro h
    simp [reset_user_password, hadmin, h]
  · intro np hnp hne hv
    subst hnp
    simp [reset_user_password, hadmin, hne, hv]
  · intro h
    by_cases h1 : np?.getD "" = ""
    · simp [reset_user_password, hadmin, h1] at h
    by_cases h2 : (validate_password (np?.getD "") none).1 = true
    · refine ⟨h1, h2, ?_⟩
      match h3 : findById store tid with
      | none => rfl
      | some u =>
          simp [reset_user_password, hadmin, h1, h2, h3] at h
    · rw [Bool.not_eq_true] at h2
      simp [reset_user_password, hadmin, h1, h2] at h

/-- Claim C2 (refuted — code bug): the spec requires `bootstrapDefaultAdmin`
to create the default admin if and only if zero admin accounts exist, and
the code's own comment reads `Only create if no admin users exist`, but
`create_default_admin` only checks whether a user named `admin` exists.
On a store holding one admin named `alice` it creates a second admin with
the well-known default password (admin count 1 becomes 2), and on a store
holding only a non-admin named `admin` (zero admins) it creates nothing.
The parts of the claim that do hold are also recorded: creation on the
empty store, idempotence after a successful run, the no-op on an
uninitialised store, and the strength of the default password. -/
theorem create_default_admin_ignores_admin_count :
    countAdmins [(⟨1, "alice", "Wonder123!", true, false⟩ : User)] = 1
    ∧ create_default_admin idHash
        (some [(⟨1, "alice", "Wonder123!", true, false⟩ : User)]) 2 =
        some [(⟨1, "alice", "Wonder123!", true, false⟩ : User),
              (⟨2, "admin", "Admin123!@#", true, true⟩ : User)]
    ∧ countAdmins [(⟨1, "alice", "Wonder123!", true, false⟩ : User),
                   (⟨2, "admin", "Admin123!@#", true, true⟩ : User)] = 2
    ∧ countAdmins [(⟨7, "admin", "Xyz1234!?a", false, false⟩ : User)] = 0
    ∧ create_default_admin idHash
        (some [(⟨7, "admin", "Xyz1234!?a", false, false⟩ : User)]) 8 =
        some [(⟨7, "admin", "Xyz1234!?a", false, false⟩ : User)]
    ∧ create_default_admin idHash (some []) 1 =
        some [(⟨1, "admin", "Admin123!@#", true, true⟩ : User)]
    ∧ create_default_admin idHash
        (some [(⟨1, "admin", "Admin123!@#", true, true⟩ : User)]) 2 =
        some [(⟨1, "admin", "Admin123!@#", true, true⟩ : User)]
    ∧ create_default_admin idHash none 1 = none
    ∧ validate_password "Admin123!@#" none = (true, "") := by
  decide

theorem validate_password_spec_witness :
    validate_password "short" none =
      (false, "Password must be at least 10 characters long") :=
  (validate_password_spec "short" none).2.2.1 (by decide)

theorem login_nonadmin_denied_witness :
    login idHash [bobUser] none (some "bob") (some "Builder123!") (some "/x")
      "https://x.test/" =
    .ok (⟨[("Access denied. Admin privileges required.", "error")],
          .renderLogin⟩, none) :=
  login_nonadmin_denied idHash [bobUser] bobUser "bob" "Builder123!" (some "/x")
    "https://x.test/" (by decide) (by decide) rfl rfl rfl

theorem login_must_change_redirects_witness :
    login idHash [carolUser] none (some "carol") (some "Secret123!?")
      (some "/admin") "https://x.test/" =
    .ok (⟨[("You must change your password before continuing", "warning")],
          .redirectChangePassword⟩, some carolUser) :=
  login_must_change_redirects idHash [carolUser] carolUser "carol" "Secret123!?"
    (some "/admin") "https://x.test/" (by decide) (by decide) rfl rfl rfl rfl

theorem login_invalid_credentials_uniform_witness :
    (login idHash [aliceUser] none (some "nosuch") (some "Wonder123!") none
        "https://x.test/" =
      login idHash [aliceUser] none (some "alice") (some "wrong") (some "/a")
        "https://x.test/")
    ∧ login idHash [aliceUser] none (some "nosuch") (some "Wonder123!") none
        "https://x.test/" =
      .ok (⟨[("Invalid username or password", "error")], .renderLogin⟩, none) :=
  login_invalid_credentials_uniform idHash idHash [aliceUser] [aliceUser]
    aliceUser "nosuch" "Wonder123!" "alice" "wrong" none (some "/a")
    "https://x.test/" "https://x.test/" (by decide) (by decide) (by decide)
    (by decide) rfl rfl rfl

theorem change_password_spec_witness :
    ((change_password idHash aliceUser (some "Wonder123!") (some "NewPass99!?")
        (some "NewPass99!?")).2.password_must_change = false)
    ∧ ((change_password idHash aliceUser (some "Wonder123!") (some "NewPass99!?")
        (some "NewPass99!?")).2.check_password idHash "NewPass99!?" = true)
    ∧ ((change_password idHash aliceUser (some "Wonder123!") (some "NewPass99!?")
        (some "NewPass99!?")).2.check_password idHash "Wonder123!" = false) :=
  change_password_spec idHash aliceUser "Wonder123!" "NewPass99!?" "NewPass99!?"
    idHash_sound (by decide)

theorem create_user_rejects_witness :
    (create_user idHash [aliceUser] aliceUser (some "alice") (some "Wonder123!")
        9 =
      (⟨[("User \x27alice\x27 already exists", "error")], .redirectUserList⟩,
       [aliceUser]))
    ∧ (create_user idHash [aliceUser] aliceUser (some "dave") (some "weak") 9 =
      (⟨[("Password must be at least 10 characters long", "error")],
        .redirectUserList⟩, [aliceUser])) :=
  ⟨(create_user_rejects idHash [aliceUser] aliceUser "alice" "Wonder123!" 9 rfl
      (by decide) (by decide)).1 aliceUser rfl,
   (create_user_rejects idHash [aliceUser] aliceUser "dave" "weak" 9 rfl
      (by decide) (by decide)).2 rfl rfl⟩

theorem reset_user_password_spec_witness :
    findById (reset_user_password idHash [aliceUser, bobUser] aliceUser 2
        (some "Fresh1234!")).2 2 =
      some (⟨2, "bob", "Fresh1234!", false, true⟩ : User)
    ∧ ((⟨2, "bob", "Fresh1234!", false, true⟩ : User)).password_must_change = true
    ∧ ((⟨2, "bob", "Fresh1234!", false, true⟩ : User)).password_hash =
        idHash.gen "Fresh1234!" :=
  reset_user_password_spec idHash [aliceUser, bobUser] aliceUser 2 "Fresh1234!"
    bobUser rfl (by decide) rfl rfl

theorem reset_user_password_validates_before_lookup_witness :
    reset_user_password idHash [aliceUser] aliceUser 99 (some "weak") =
      (⟨[("Password must be at least 10 characters long", "error")],
        .redirectUserList⟩, [aliceUser]) :=
  (reset_user_password_validates_before_lookup idHash [aliceUser] aliceUser 99
    (some "weak") rfl).2.1 "weak" rfl (by decide) rfl

end App
